import Mathlib

/-!
# Verification of the greetd-egui session authentication protocol client

Shallow embedding of `src/main.rs` of the greetd-egui greeter: the protocol
message types, the event-loop state (the mutable locals of `main`), the
response handler (main.rs lines 279–325), the keystroke handler
(main.rs lines 447–470), the single-slot response inbox
(main.rs lines 229–243), the startup session-entry selection
(main.rs lines 245–272), and — modelled from the spec, because the
`greetd_client` crate is not part of the sources under `src/` — the wire
codec and the connection lifecycle of the transport.
-/

namespace GreetdEgui

/-- `AuthMessageType` from the `greetd_client` crate, as used by `main.rs`:
the four prompt kinds of the greetd protocol. -/
inductive AuthMessageType
  | visible
  | secret
  | info
  | error
deriving DecidableEq

/-- `ErrorType` from the `greetd_client` crate, as used by `main.rs`:
`Error` is a generic failure, `AuthError` an authentication failure. -/
inductive ErrorType
  | error
  | authError
deriving DecidableEq

/-- `Response` from the `greetd_client` crate, as matched exhaustively by
`main.rs` lines 280–325.  `finish` is the variant the client crate delivers
after the `start_session` round trip completes successfully. -/
inductive Response
  | authMessage (ty : AuthMessageType) (msg : String)
  | finish
  | success
  | error (ty : ErrorType) (description : String)
deriving DecidableEq

/-- The greetd request messages the client can send (spec §3):
`create_session`, `post_auth_message_response`, `start_session`,
`cancel_session`.  `main.rs` issues the first three through
`stream.create_session`, `stream.authentication_response` and
`stream.start_session`. -/
inductive Request
  | createSession (username : String)
  | postAuthMessageResponse (response : Option String)
  | startSession (cmd : List String)
  | cancelSession
deriving DecidableEq

/-- A request together with the identity (generation number) of the
connection it was sent on.  Connection generations model which underlying
socket connection of the `Greetd` transport carries the request. -/
structure SentRequest where
  req : Request
  conn : Nat
deriving DecidableEq

/-- `FocusedField` from `main.rs` lines 527–531. -/
inductive FocusedField
  | username
  | password
deriving DecidableEq

/-- The startup configuration taken from the command line in `main.rs`
lines 58–76: the optional `--username` default identity. -/
structure Config where
  defaultUsername : Option String
deriving DecidableEq

/-- The mutable locals of `main` that the event loop reads and writes
(`main.rs` lines 164–277): field focus, the username and password buffers,
the current auth message and its kind, the window title, the pending-focus
flag, and whether `control_flow` was set to `Exit`.  `connGen` is the
generation number of the live `Greetd` connection (the transport's
connection state lives in the `greetd_client` crate, outside `src/`; it is
modelled here as a counter). -/
structure LoopState where
  focused : FocusedField
  username : String
  password : String
  authMessage : String
  authMessageType : Option AuthMessageType
  windowTitle : String
  pendingFocus : Bool
  exited : Bool
  connGen : Nat
deriving DecidableEq

/-- Modelled from the spec: the `greetd_client` crate that owns the
connection is not under `src/`.  Per the spec, "after an `Auth` error the
connection is discarded and a new connection ... is established" and "the
old connection is simply dropped (closed) without an explicit cancel
handshake".  Discarding and re-establishing is modelled by bumping the
connection generation. -/
def reconnect (s : LoopState) : LoopState :=
  { s with connGen := s.connGen + 1 }

/-- The response handler: the `if let Some(i) = response_queue.take()`
match of `main.rs` lines 279–325, translated arm by arm.  It is
parameterised by the startup configuration and by `current_env.exec`, the
exec command of the currently selected session entry.  Returns the updated
state and the requests sent during the step.

* `AuthMessage`: store the message and its kind; if the kind is `Info` or
  `Error`, immediately send `authentication_response(None)` (lines 281–293).
* `Finish`: set `control_flow = Exit` (lines 294–296).
* `Success`: send `start_session(["/etc/ly/wsetup.sh", current_env.exec])`
  (lines 297–301).
* `Error{Error}`: set the window title to the description (line 307).
* `Error{AuthError}`: set the title to "Login failed", refocus the username
  field, clear the auth-message kind and both text buffers; then, if a
  default username was configured, re-issue `create_session` for it and
  focus the password field (lines 308–320).  The connection swap on auth
  error is the spec-modelled `reconnect`. -/
def handleResponse (cfg : Config) (currentEnvExec : String) (s : LoopState) :
    Response → LoopState × List SentRequest
  | .authMessage ty am =>
      let s' := { s with authMessage := am, authMessageType := some ty }
      match ty with
      | .info => (s', [⟨.postAuthMessageResponse none, s'.connGen⟩])
      | .error => (s', [⟨.postAuthMessageResponse none, s'.connGen⟩])
      | _ => (s', [])
  | .finish => ({ s with exited := true }, [])
  | .success =>
      (s, [⟨.startSession ["/etc/ly/wsetup.sh", currentEnvExec], s.connGen⟩])
  | .error .error d => ({ s with windowTitle := d }, [])
  | .error .authError _ =>
      let s' := reconnect { s with windowTitle := "Login failed", focused := .username, pendingFocus := true, authMessageType := none, username := "", password := "" }
      match cfg.defaultUsername with
      | some d =>
          ({ s' with username := d, focused := .password },
           [⟨.createSession d, s'.connGen⟩])
      | none => (s', [])

/-- The `ReceivedCharacter` keystroke handler of `main.rs` lines 447–470,
restricted to the protocol-relevant characters:

* `'\r'` with focus on the password field: if the username buffer is empty,
  refocus the username field and send nothing; otherwise send
  `authentication_response(Some(password))` (lines 450–457).
* `'\r'` with focus on the username field: send `create_session(username)`
  unconditionally and focus the password field (lines 458–462).
* `'\t'`: toggle the focused field (lines 464–470).

Every other character is forwarded to the GUI toolkit (text editing,
session cycling) and sends no protocol request. -/
def handleChar (s : LoopState) (c : Char) : LoopState × List SentRequest :=
  if c = '\r' then
    match s.focused with
    | .password =>
        if s.username.isEmpty then
          ({ s with focused := .username, pendingFocus := true }, [])
        else
          ({ s with pendingFocus := true },
           [⟨.postAuthMessageResponse (some s.password), s.connGen⟩])
    | .username =>
        ({ s with focused := .password, pendingFocus := true },
         [⟨.createSession s.username, s.connGen⟩])
  else if c = '\t' then
    (match s.focused with
     | .username => { s with focused := .password, pendingFocus := true }
     | .password => { s with focused := .username, pendingFocus := true }, [])
  else
    (s, [])

/-- An input to one iteration of the event loop: either a daemon response
drained from the inbox or a keystroke. -/
inductive LoopEvent
  | daemon (r : Response)
  | key (c : Char)
deriving DecidableEq

/-- One control-loop step on one event. -/
def step (cfg : Config) (exec : String) (s : LoopState) :
    LoopEvent → LoopState × List SentRequest
  | .daemon r => handleResponse cfg exec s r
  | .key c => handleChar s c

/-- Run the control loop over a sequence of events, accumulating every
request sent. -/
def run (cfg : Config) (exec : String) (s : LoopState) :
    List LoopEvent → LoopState × List SentRequest
  | [] => (s, [])
  | e :: es =>
      let out := step cfg exec s e
      let rest := run cfg exec out.1 es
      (rest.1, out.2 ++ rest.2)

/-- The loop state at startup, and the request sent before the loop when a
default username is configured: `main.rs` lines 164–171 (`focused`
starts at `Username`; with `--username`, the buffer is pre-filled,
`create_session` is issued on the fresh connection and focus moves to the
password field) and lines 273–277 (`pending_focus = true`,
window title `"Login"`). -/
def initLoop (cfg : Config) : LoopState × List SentRequest :=
  let s : LoopState :=
    { focused := .username, username := "", password := "",
      authMessage := "", authMessageType := none, windowTitle := "Login",
      pendingFocus := true, exited := false, connGen := 0 }
  match cfg.defaultUsername with
  | some d =>
      ({ s with username := d, focused := .password },
       [⟨.createSession d, 0⟩])
  | none => (s, [])

/-- Whether the render pass (`main.rs` lines 364–385) adds an interactive
reply field for the current auth-message kind: a `TextEdit` is shown only
for `Visible` (plain) and `Secret` (masked); `Info`, `Error` and "no
message" render no reply field. -/
def promptShown : Option AuthMessageType → Bool
  | some .visible => true
  | some .secret => true
  | _ => false

/-- The single-slot response inbox (`main.rs` lines 229–240): the stream
dispatcher writes an arriving response into the shared `response_queue`
slot; if the slot is already occupied, the closure panics with
"Multiple events cannot be in the queue at once" (modelled as
`Except.error` carrying the panic message) instead of overwriting. -/
def pushResponse (slot : Option Response) (event : Response) :
    Except String (Option Response) :=
  match slot with
  | some _ => .error "Multiple events cannot be in the queue at once"
  | none => .ok (some event)

/-- A parsed desktop session entry (`StrippedEntry` of `main.rs`
lines 39–43). -/
structure StrippedEntry where
  name : String
  exec : String
deriving DecidableEq

/-- The initial session index (`main.rs` lines 264–271): with a
`--session` argument, the position of the entry with that name, defaulting
to 0 when absent; otherwise 0. -/
def currentEnvIndex (envs : List StrippedEntry) (sessionArg : Option String) :
    Nat :=
  match sessionArg with
  | some sess => (envs.findIdx? (fun f => f.name == sess)).getD 0
  | none => 0

/-- Selection of the initial session entry (`main.rs` line 272:
`&environments[current_env_index]`).  The Rust index expression panics
when the index is out of bounds; that panic is modelled by `none`.  This
selection runs during startup, before `event_loop.run_return`. -/
def selectInitialEnv (envs : List StrippedEntry) (sessionArg : Option String) :
    Option StrippedEntry :=
  envs[currentEnvIndex envs sessionArg]?

/-- The requests a response triggers, as a function of the response and the
startup configuration alone (the defined transition table of the handler).
Used to state that the handler processes every response the same way in
every loop state. -/
def responseRequests (cfg : Config) (currentEnvExec : String) :
    Response → List Request
  | .authMessage .info _ => [.postAuthMessageResponse none]
  | .authMessage .error _ => [.postAuthMessageResponse none]
  | .authMessage _ _ => []
  | .finish => []
  | .success => [.startSession ["/etc/ly/wsetup.sh", currentEnvExec]]
  | .error .error _ => []
  | .error .authError _ =>
      match cfg.defaultUsername with
      | some d => [.createSession d]
      | none => []

/-- Modelled from the spec: JSON string escaping of one character for the
wire codec, which lives in the `greetd_client` crate outside `src/`.  The
body is "the exact UTF-8 JSON-equivalent serialization", so `"` and `\`
are escaped with a backslash. -/
def escapeChar (c : Char) : List Char :=
  if c = '"' ∨ c = '\\' then ['\\', c] else [c]

/-- Modelled from the spec: JSON string escaping of a character sequence. -/
def escapeStr : List Char → List Char
  | [] => []
  | c :: cs => escapeChar c ++ escapeStr cs

/-- Modelled from the spec: parse a JSON string body up to its closing
quote (the opening quote already consumed), undoing `escapeStr`; returns
the content and the remaining input. -/
def parseQuoted : List Char → Option (List Char × List Char)
  | [] => none
  | c :: rest =>
      if c = '"' then some ([], rest)
      else if c = '\\' then
        match rest with
        | [] => none
        | d :: rest' =>
            match parseQuoted rest' with
            | some (s, r) => some (d :: s, r)
            | none => none
      else
        match parseQuoted rest with
        | some (s, r) => some (c :: s, r)
        | none => none

/-- Modelled from the spec: serialize the elements of a JSON string array
(everything after the opening `[`), including the closing `]`. -/
def encodeItems : List String → List Char
  | [] => [']']
  | [x] => '"' :: (escapeStr x.data ++ ['"', ']'])
  | x :: xs => '"' :: (escapeStr x.data ++ ['"', ','] ++ encodeItems xs)

/-- Modelled from the spec: fuelled parser for the elements of a JSON
string array, inverse to `encodeItems`; the fuel only bounds the number of
elements so that the recursion is structural. -/
def parseItemsF : Nat → List Char → Option (List String × List Char)
  | 0, _ => none
  | fuel + 1, l =>
      match l with
      | [] => none
      | c :: rest =>
          if c = ']' then some ([], rest)
          else if c = '"' then
            match parseQuoted rest with
            | some (s, r) =>
                match r with
                | ',' :: r' =>
                    (match parseItemsF fuel r' with
                     | some (xs, rr) => some (⟨s⟩ :: xs, rr)
                     | none => none)
                | ']' :: r' => some ([⟨s⟩], r')
                | _ => none
            | none => none
          else none

/-- Modelled from the spec: parse a JSON string array's elements; the
input length plus one is always enough fuel. -/
def parseItems (l : List Char) : Option (List String × List Char) :=
  parseItemsF (l.length + 1) l

/-- Strip an expected literal from the front of the input, failing on any
mismatch. -/
def stripLit : List Char → List Char → Option (List Char)
  | [], l => some l
  | _ :: _, [] => none
  | c :: cs, d :: ds => if c = d then stripLit cs ds else none

/-- The common prefix of every request body: an opening brace and the
`type` key. -/
def jsonHdr : List Char := "\x7b\"type\":\"".data

/-- Modelled from the spec: the exact request bodies of §6 —
`\x7b"type":"create_session","username":"<string>"\x7d`,
`\x7b"type":"post_auth_message_response","response":"<string>"\x7d` or
`\x7b"type":"post_auth_message_response"\x7d` when there is no reply
payload, `\x7b"type":"start_session","cmd":[...]\x7d`, and
`\x7b"type":"cancel_session"\x7d` — with JSON string escaping of the
payload fields.  The wire codec is in the `greetd_client` crate, outside
`src/`. -/
def encodeBody : Request → List Char
  | .createSession u =>
      jsonHdr ++ "create_session".data ++
        '"' :: (",\"username\":\"".data ++ escapeStr u.data ++ ['"', '\x7d'])
  | .postAuthMessageResponse (some resp) =>
      jsonHdr ++ "post_auth_message_response".data ++
        '"' :: (",\"response\":\"".data ++ escapeStr resp.data ++ ['"', '\x7d'])
  | .postAuthMessageResponse none =>
      jsonHdr ++ "post_auth_message_response".data ++ '"' :: ['\x7d']
  | .startSession cmd =>
      jsonHdr ++ "start_session".data ++
        '"' :: (",\"cmd\":[".data ++ encodeItems cmd ++ ['\x7d'])
  | .cancelSession =>
      jsonHdr ++ "cancel_session".data ++ '"' :: ['\x7d']

/-- Modelled from the spec: decode a request body once its `type` value
`ty` has been parsed; `l2` is the rest of the body after the type string's
closing quote. -/
def decodeTyped (ty : List Char) (l2 : List Char) : Option Request :=
  if ty = "create_session".data then
    (stripLit ",\"username\":\"".data l2).bind fun l3 =>
      (parseQuoted l3).bind fun p =>
        if p.2 = ['\x7d'] then some (.createSession ⟨p.1⟩) else none
  else if ty = "post_auth_message_response".data then
    if l2 = ['\x7d'] then some (.postAuthMessageResponse none)
    else
      (stripLit ",\"response\":\"".data l2).bind fun l3 =>
        (parseQuoted l3).bind fun p =>
          if p.2 = ['\x7d'] then some (.postAuthMessageResponse (some ⟨p.1⟩))
          else none
  else if ty = "start_session".data then
    (stripLit ",\"cmd\":[".data l2).bind fun l3 =>
      (parseItems l3).bind fun p =>
        if p.2 = ['\x7d'] then some (.startSession p.1) else none
  else if ty = "cancel_session".data then
    if l2 = ['\x7d'] then some .cancelSession else none
  else none

/-- Modelled from the spec: decode a request body — strip the common
header, parse the `type` value, dispatch. -/
def decodeBody (l : List Char) : Option Request :=
  (stripLit jsonHdr l).bind fun l1 =>
    (parseQuoted l1).bind fun p => decodeTyped p.1 p.2

/-- The UTF-8 byte length of a body given as a character sequence. -/
def byteLength (l : List Char) : Nat :=
  (l.map Char.utf8Size).sum

/-- The four bytes of a 32-bit length prefix in native byte order, which
is little-endian on the targets this greeter runs on. -/
def u32le (n : Nat) : List Nat :=
  [n % 256, n / 256 % 256, n / 65536 % 256, n / 16777216 % 256]

/-- Read back a 4-byte little-endian length prefix; any other byte count
is a framing error. -/
def readU32le : List Nat → Option Nat
  | [b0, b1, b2, b3] => some (b0 + 256 * b1 + 65536 * b2 + 16777216 * b3)
  | _ => none

/-- One wire frame: the 4-byte length prefix and the message body (the
body is kept as its decoded character sequence; its byte length is
`byteLength`). -/
structure Frame where
  lenBytes : List Nat
  body : List Char
deriving DecidableEq

/-- Modelled from the spec: encode a request as one frame, the length
prefix counting the body's bytes only. -/
def encodeFrame (r : Request) : Frame :=
  ⟨u32le (byteLength (encodeBody r)), encodeBody r⟩

/-- Modelled from the spec: decode a frame as a request — read exactly
four prefix bytes, check that exactly that many body bytes are present,
then parse the body. -/
def decodeFrame (f : Frame) : Option Request :=
  match readU32le f.lenBytes with
  | none => none
  | some n => if n = byteLength f.body then decodeBody f.body else none

/-- The loop state of a fresh start with no default username: focus on the
username field, empty buffers, title "Login", connection generation 0. -/
def baseState : LoopState :=
  { focused := .username, username := "", password := "", authMessage := "",
    authMessageType := none, windowTitle := "Login", pendingFocus := true,
    exited := false, connGen := 0 }

/-- `baseState` after the user typed "alice" into the username field. -/
def aliceState : LoopState :=
  { baseState with username := "alice" }

/-- `baseState` with focus on the password field and the username buffer
still empty. -/
def pwFocusState : LoopState :=
  { baseState with focused := .password }

theorem parseQuoted_escape (s : List Char) (rest : List Char) :
    parseQuoted (escapeStr s ++ '"' :: rest) = some (s, rest) := by
  induction s with
  | nil =>
      simp only [escapeStr, List.nil_append]
      rw [parseQuoted.eq_def]
      simp
  | cons c cs ih =>
      by_cases hc : c = '"' ∨ c = '\\'
      · simp only [escapeStr, escapeChar, hc, if_true, List.cons_append, List.append_assoc]
        rw [parseQuoted.eq_def]
        simp [ih]
      · push_neg at hc
        simp only [escapeStr, escapeChar, hc, or_self, if_false, List.cons_append,
          List.nil_append]
        rw [parseQuoted.eq_def]
        simp [ih, hc.1, hc.2]

theorem parseItemsF_encode : ∀ (fuel : Nat) (xs : List String) (rest : List Char),
    xs.length < fuel → parseItemsF fuel (encodeItems xs ++ rest) = some (xs, rest) := by
  intro fuel xs
  induction xs generalizing fuel with
  | nil =>
      intro rest h
      cases fuel with
      | zero => simp at h
      | succ f =>
          rw [encodeItems, parseItemsF.eq_def]
          simp
  | cons x xs ih =>
      cases xs with
      | nil =>
          intro rest h
          cases fuel with
          | zero => simp at h
          | succ f =>
              rw [encodeItems, parseItemsF.eq_def]
              simp only [List.cons_append, List.append_assoc, List.nil_append]
              rw [parseQuoted_escape x.data (']' :: rest)]
              simp
      | cons y ys =>
          intro rest h
          cases fuel with
          | zero => simp at h
          | succ f =>
              rw [encodeItems, parseItemsF.eq_def]
              · simp only [List.cons_append, List.append_assoc, List.nil_append]
                rw [parseQuoted_escape x.data (',' :: (encodeItems (y :: ys) ++ rest))]
                have hf : (y :: ys).length < f := by
                  simp at h ⊢
                  omega
                simp [ih f rest hf]
              · simp

theorem encodeItems_length (xs : List String) : xs.length ≤ (encodeItems xs).length := by
  induction xs with
  | nil => simp [encodeItems]
  | cons x xs ih =>
      cases xs with
      | nil => simp [encodeItems]
      | cons y ys =>
          rw [encodeItems]
          · simp at ih ⊢
            omega
          · simp

theorem parseItems_encode (xs : List String) (rest : List Char) :
    parseItems (encodeItems xs ++ rest) = some (xs, rest) := by
  have h1 := encodeItems_length xs
  have h2 : xs.length < (encodeItems xs ++ rest).length + 1 := by
    simp
    omega
  exact parseItemsF_encode _ xs rest h2

theorem stripLit_append (p rest : List Char) : stripLit p (p ++ rest) = some rest := by
  induction p with
  | nil => rfl
  | cons c cs ih => simp [stripLit, ih]

theorem escape_create :
    escapeStr "create_session".data = "create_session".data := by decide

theorem escape_post :
    escapeStr "post_auth_message_response".data = "post_auth_message_response".data := by
  decide

theorem escape_start :
    escapeStr "start_session".data = "start_session".data := by decide

theorem escape_cancel :
    escapeStr "cancel_session".data = "cancel_session".data := by decide

/-- Round trip of the body codec: decoding an encoded request body gives
back the request, for every request value. -/
theorem decodeBody_encodeBody (r : Request) : decodeBody (encodeBody r) = some r := by
  cases r with
  | createSession u =>
      have hty := parseQuoted_escape "create_session".data
        (",\"username\":\"".data ++ escapeStr u.data ++ ['"', '\x7d'])
      rw [escape_create] at hty
      have hu := parseQuoted_escape u.data ['\x7d']
      simp only [Char.isValue, List.cons_append, List.nil_append] at hty
      simp only [encodeBody, decodeBody, decodeTyped, List.append_assoc, stripLit_append,
        Option.some_bind, Char.isValue, List.cons_append, List.nil_append,
        hty, eq_self_iff_true, if_true]
      simp [stripLit, hu]
  | postAuthMessageResponse resp =>
      cases resp with
      | some s =>
          have hty := parseQuoted_escape "post_auth_message_response".data
            (",\"response\":\"".data ++ escapeStr s.data ++ ['"', '\x7d'])
          rw [escape_post] at hty
          have hs := parseQuoted_escape s.data ['\x7d']
          simp only [Char.isValue, List.cons_append, List.nil_append] at hty
          simp only [encodeBody, decodeBody, decodeTyped, List.append_assoc, stripLit_append,
            Option.some_bind, Char.isValue, List.cons_append, List.nil_append, hty]
          simp [stripLit, hs]
      | none =>
          have hty := parseQuoted_escape "post_auth_message_response".data ['\x7d']
          rw [escape_post] at hty
          simp only [Char.isValue, List.cons_append, List.nil_append] at hty
          simp only [encodeBody, decodeBody, decodeTyped, List.append_assoc, stripLit_append,
            Option.some_bind, Char.isValue, List.cons_append, List.nil_append, hty]
          simp
  | startSession cmd =>
      have hty := parseQuoted_escape "start_session".data
        (",\"cmd\":[".data ++ encodeItems cmd ++ ['\x7d'])
      rw [escape_start] at hty
      have hc := parseItems_encode cmd ['\x7d']
      simp only [Char.isValue, List.cons_append, List.nil_append] at hty
      simp only [encodeBody, decodeBody, decodeTyped, List.append_assoc, stripLit_append,
        Option.some_bind, Char.isValue, List.cons_append, List.nil_append, hty]
      simp [stripLit, hc]
  | cancelSession =>
      have hty := parseQuoted_escape "cancel_session".data ['\x7d']
      rw [escape_cancel] at hty
      simp only [Char.isValue, List.cons_append, List.nil_append] at hty
      simp only [encodeBody, decodeBody, decodeTyped, List.append_assoc, stripLit_append,
        Option.some_bind, Char.isValue, List.cons_append, List.nil_append, hty]
      simp

theorem readU32le_u32le (n : Nat) (h : n < 4294967296) :
    readU32le (u32le n) = some n := by
  simp only [u32le, readU32le, Option.some.injEq]
  omega

/-- C1: an `Error{Auth}` response, received in any prior loop state, resets
the conversation: the password buffer is cleared, the pending auth-message
kind is cleared, the title shows "Login failed" and focus is re-requested;
without a default identity the username buffer is cleared, focus returns to
the identity field and no request is sent (`Unauthenticated`); with a
default identity `du` the buffer holds `du`, a single `CreateSession du` is
re-issued at once (`AwaitingCreateAck`) and focus moves to the password
field. -/
theorem c1_auth_error_resets (cfg : Config) (exec d : String) (s : LoopState) :
    ((handleResponse cfg exec s (.error .authError d)).1.password = "" ∧
     (handleResponse cfg exec s (.error .authError d)).1.authMessageType = none ∧
     (handleResponse cfg exec s (.error .authError d)).1.windowTitle = "Login failed" ∧
     (handleResponse cfg exec s (.error .authError d)).1.pendingFocus = true) ∧
    (handleResponse cfg exec s (.error .authError d)).1.username =
      cfg.defaultUsername.getD "" ∧
    (handleResponse cfg exec s (.error .authError d)).1.focused =
      (if cfg.defaultUsername.isSome then .password else .username) ∧
    (handleResponse cfg exec s (.error .authError d)).2.map SentRequest.req =
      cfg.defaultUsername.elim [] (fun du => [.createSession du]) := by
  cases h : cfg.defaultUsername <;>
    simp [handleResponse, reconnect, h]

/-- C2: an `AuthMessage` response of kind `Info` or `Error` is acknowledged
immediately and automatically, within the same handler step, by a single
`PostAuthMessageResponse` carrying no payload (`response = none`); and in
the resulting state no interactive reply field is rendered, so no submit
keystroke is ever required for such a message. -/
theorem c2_info_error_auto_ack (cfg : Config) (exec am : String) (s : LoopState) :
    (handleResponse cfg exec s (.authMessage .info am)).2 =
      [⟨.postAuthMessageResponse none, s.connGen⟩] ∧
    (handleResponse cfg exec s (.authMessage .error am)).2 =
      [⟨.postAuthMessageResponse none, s.connGen⟩] ∧
    promptShown (handleResponse cfg exec s (.authMessage .info am)).1.authMessageType = false ∧
    promptShown (handleResponse cfg exec s (.authMessage .error am)).1.authMessageType = false := by
  simp [handleResponse, promptShown]

/-- C3, counterexample to the claim as stated: in the fresh state with an
empty username buffer and focus on the identity field, the submit keystroke
is not swallowed — `create_session("")` is sent and focus moves to the
password field. -/
theorem c3_counterexample :
    (handleChar baseState '\r').2.map SentRequest.req = [.createSession ""] ∧
    (handleChar baseState '\r').1.focused = .password := by
  decide

/-- C3, amended: with an empty username buffer, a submit on the password
field sends no request and reverts focus to the identity field; but a
submit on the identity field always sends `CreateSession` with the current
(empty) username and moves focus to the password field. -/
theorem c3_empty_username_submit (s : LoopState) (h : s.username = "") :
    (s.focused = .password →
      handleChar s '\r' = ({ s with focused := .username, pendingFocus := true }, [])) ∧
    (s.focused = .username →
      (handleChar s '\r').2.map SentRequest.req = [.createSession ""] ∧
      (handleChar s '\r').1.focused = .password) := by
  constructor
  · intro hf
    simp [handleChar, hf, h, String.isEmpty]
  · intro hf
    simp [handleChar, hf, h, String.isEmpty]

/-- Witness for `c3_empty_username_submit` at the concrete state with empty
username and password focus. -/
theorem c3_empty_username_submit_witness :
    handleChar pwFocusState '\r' =
      ({ pwFocusState with focused := .username, pendingFocus := true }, []) :=
  (c3_empty_username_submit pwFocusState rfl).1 rfl

/-- C5, amended: an `Error{Generic}` response surfaces its description as
the window title, changes nothing else, and its handling emits no protocol
request; but the state is not terminal — the loop keeps processing user
input, and a later submit issues `create_session` on the same,
non-reconnected connection (see the counterexample). -/
theorem c5_generic_error_sets_title (cfg : Config) (exec d : String) (s : LoopState) :
    handleResponse cfg exec s (.error .error d) = ({ s with windowTitle := d }, []) :=
  rfl

/-- C5, counterexample to "no further protocol request is ever sent on the
failed connection": starting from connection generation 0, a generic error
("boom") followed by a submit keystroke sends `create_session("alice")`
with connection generation still 0 — a further request on the very
connection the generic error arrived on. -/
theorem c5_counterexample :
    aliceState.connGen = 0 ∧
    (run ⟨none⟩ "/usr/bin/sway" aliceState
        [.daemon (.error .error "boom"), .key '\r']).2 =
      [⟨.createSession "alice", 0⟩] := by
  decide

/-- C6: a `Success` response makes the handler send exactly one
`StartSession` whose `cmd` is exactly the two-element list
`["/etc/ly/wsetup.sh", exec]` for the chosen session's exec command; on the
chosen exec "/usr/bin/startplasma-wayland" the `cmd` array is exactly
`["/etc/ly/wsetup.sh", "/usr/bin/startplasma-wayland"]`; and the client
crate's terminal success after `start_session` (`Response.finish`) makes
the loop exit with no further request. -/
theorem c6_success_starts_session (cfg : Config) (exec : String) (s : LoopState) :
    handleResponse cfg exec s .success =
      (s, [⟨.startSession ["/etc/ly/wsetup.sh", exec], s.connGen⟩]) ∧
    (handleResponse cfg "/usr/bin/startplasma-wayland" s .success).2.map SentRequest.req =
      [.startSession ["/etc/ly/wsetup.sh", "/usr/bin/startplasma-wayland"]] ∧
    (handleResponse cfg exec s .finish).1.exited = true ∧
    (handleResponse cfg exec s .finish).2 = [] :=
  ⟨rfl, rfl, rfl, rfl⟩

/-- C7, amended: no response is silently dropped — every `Response` variant
is matched and triggers its defined transition — but the handler keeps no
record of whether a request is outstanding: the requests it emits are a
function of the response and the startup configuration alone, identical in
every loop state, so a spurious response is processed by the ordinary
transition rather than being flagged as a protocol violation. -/
theorem c7_responses_state_independent (cfg : Config) (exec : String)
    (s : LoopState) (r : Response) :
    (handleResponse cfg exec s r).2.map SentRequest.req = responseRequests cfg exec r := by
  cases r with
  | authMessage ty am => cases ty <;> simp [handleResponse, responseRequests]
  | finish => simp [handleResponse, responseRequests]
  | success => simp [handleResponse, responseRequests]
  | error ty d =>
      cases ty <;> cases h : cfg.defaultUsername <;>
        simp [handleResponse, responseRequests, reconnect, h]

/-- C7, counterexample to the claim as stated: on a fresh start with no
default identity no request has ever been sent (none is outstanding), yet a
spurious `Success` response is not treated as a protocol violation — it is
answered with a normal `StartSession` request. -/
theorem c7_counterexample :
    (initLoop ⟨none⟩).2 = [] ∧
    (handleResponse ⟨none⟩ "/usr/bin/sway" (initLoop ⟨none⟩).1 .success).2 =
      [⟨.startSession ["/etc/ly/wsetup.sh", "/usr/bin/sway"], 0⟩] := by
  decide

/-- C9: the response inbox is a single `Option` slot, so it holds at most
one undrained response by construction; delivering into an empty slot
stores the response, and delivering while a previous response is still in
the slot aborts with the panic message "Multiple events cannot be in the
queue at once" — neither response is overwritten or dropped. -/
theorem c9_single_slot_abort (r r' : Response) :
    pushResponse none r = .ok (some r) ∧
    pushResponse (some r) r' =
      .error "Multiple events cannot be in the queue at once" :=
  ⟨rfl, rfl⟩

/-- C10: when the discovered session-entry list is empty, selecting the
initial entry by index — which happens at startup, before the event loop
runs — goes out of bounds (the Rust index expression panics, modelled as
`none`), whatever `--session` argument was given. -/
theorem c10_empty_sessions_panics (sessionArg : Option String) :
    selectInitialEnv [] sessionArg = none := by
  cases sessionArg <;> rfl

theorem handleChar_connGen (s : LoopState) (c : Char) :
    (handleChar s c).1.connGen = s.connGen := by
  unfold handleChar
  by_cases h1 : c = '\r' <;> by_cases h2 : c = '\t' <;>
    cases hf : s.focused <;> by_cases h3 : s.username.isEmpty <;>
      simp [h1, h2, hf, h3]

theorem handleChar_req_conn (s : LoopState) (c : Char) :
    ∀ q ∈ (handleChar s c).2, q.conn = s.connGen := by
  unfold handleChar
  by_cases h1 : c = '\r' <;> by_cases h2 : c = '\t' <;>
    cases hf : s.focused <;> by_cases h3 : s.username.isEmpty <;>
      simp [h1, h2, hf, h3]

theorem handleResponse_connGen_le (cfg : Config) (exec : String) (s : LoopState)
    (r : Response) : s.connGen ≤ (handleResponse cfg exec s r).1.connGen := by
  cases r with
  | authMessage ty am => cases ty <;> simp [handleResponse]
  | finish => simp [handleResponse]
  | success => simp [handleResponse]
  | error ty d =>
      cases ty <;> cases h : cfg.defaultUsername <;>
        simp [handleResponse, reconnect, h]

theorem handleResponse_req_conn_le (cfg : Config) (exec : String) (s : LoopState)
    (r : Response) : ∀ q ∈ (handleResponse cfg exec s r).2, s.connGen ≤ q.conn := by
  cases r with
  | authMessage ty am => cases ty <;> simp [handleResponse]
  | finish => simp [handleResponse]
  | success => simp [handleResponse]
  | error ty d =>
      cases ty <;> cases h : cfg.defaultUsername <;>
        simp [handleResponse, reconnect, h]

theorem step_connGen_le (cfg : Config) (exec : String) (s : LoopState)
    (e : LoopEvent) : s.connGen ≤ (step cfg exec s e).1.connGen := by
  cases e with
  | daemon r => exact handleResponse_connGen_le cfg exec s r
  | key c => simp [step, handleChar_connGen]

theorem step_req_conn_le (cfg : Config) (exec : String) (s : LoopState)
    (e : LoopEvent) : ∀ q ∈ (step cfg exec s e).2, s.connGen ≤ q.conn := by
  cases e with
  | daemon r => exact handleResponse_req_conn_le cfg exec s r
  | key c =>
      intro q hq
      have := handleChar_req_conn s c q hq
      omega

theorem run_req_conn_le (cfg : Config) (exec : String) :
    ∀ (evs : List LoopEvent) (s : LoopState),
      ∀ q ∈ (run cfg exec s evs).2, s.connGen ≤ q.conn := by
  intro evs
  induction evs with
  | nil => intro s q hq; simp [run] at hq
  | cons e es ih =>
      intro s q hq
      simp only [run, List.mem_append] at hq
      rcases hq with hq | hq
      · exact step_req_conn_le cfg exec s e q hq
      · exact le_trans (step_connGen_le cfg exec s e) (ih _ q hq)

/-- C4: handling an `Error{Auth}` response discards the connection it
arrived on and establishes a fresh one (the generation increments), the
`CreateSession` re-issued during this very step already travels on the new
generation, and every request sent during any later run of the loop
carries a generation strictly greater than the failed connection's — the
failed connection is never reused. -/
theorem c4_auth_error_fresh_connection (cfg : Config) (exec d : String)
    (s : LoopState) (evs : List LoopEvent) :
    (handleResponse cfg exec s (.error .authError d)).1.connGen = s.connGen + 1 ∧
    ((handleResponse cfg exec s (.error .authError d)).2.all
      (fun q => decide (s.connGen < q.conn))) = true ∧
    ((run cfg exec (handleResponse cfg exec s (.error .authError d)).1 evs).2.all
      (fun q => decide (s.connGen < q.conn))) = true := by
  have hgen : (handleResponse cfg exec s (.error .authError d)).1.connGen = s.connGen + 1 := by
    cases h : cfg.defaultUsername <;> simp [handleResponse, reconnect, h]
  refine ⟨hgen, ?_, ?_⟩
  · cases h : cfg.defaultUsername <;> simp [handleResponse, reconnect, h]
  · rw [List.all_eq_true]
    intro q hq
    have h1 := run_req_conn_le cfg exec evs _ q hq
    rw [hgen] at h1
    simp only [decide_eq_true_eq]
    omega

/-- C8: for every request value whose encoded body fits the 32-bit length
prefix, encoding it as a frame and decoding that frame back as a request
reproduces the original message exactly, and the 4-byte native-endian
length prefix reads back as exactly the byte length of the encoded body
(the prefix itself not counted). -/
theorem c8_codec_roundtrip (r : Request)
    (h : byteLength (encodeBody r) < 4294967296) :
    decodeFrame (encodeFrame r) = some r ∧
    readU32le (encodeFrame r).lenBytes = some (byteLength (encodeFrame r).body) := by
  have hr := readU32le_u32le (byteLength (encodeBody r)) h
  constructor
  · simp only [decodeFrame, encodeFrame, hr, if_pos rfl]
    exact decodeBody_encodeBody r
  · simp only [encodeFrame, hr]

/-- Witness for `c8_codec_roundtrip` at the concrete request
`create_session("alice")`. -/
theorem c8_codec_roundtrip_witness :
    byteLength (encodeBody (.createSession "alice")) < 4294967296 ∧
    (decodeFrame (encodeFrame (.createSession "alice")) = some (.createSession "alice") ∧
     readU32le (encodeFrame (.createSession "alice")).lenBytes =
       some (byteLength (encodeFrame (.createSession "alice")).body)) :=
  ⟨by decide, c8_codec_roundtrip (.createSession "alice") (by decide)⟩

end GreetdEgui
